import Mathlib

/-!
Verification of the sustainability scoring and allocation engine of the
support-oss repository (packages/shared: scoring and funding modules).

The TypeScript source is shallowly embedded over `ℚ`.  JavaScript numbers are
modelled as rationals; `Math.round` is modelled as `fun x => ⌊x + 1/2⌋`
(round half toward positive infinity, the JS behaviour); optional / nullable
fields are modelled as `Option`; JS string truthiness (`if (s)`) is modelled
by `strTruthy` (present and non-empty).  `Math.log10` is transcendental and
has no exact rational counterpart, so every definition that needs it takes an
arbitrary function `log10 : ℚ → ℚ` as an explicit parameter; all theorems
below are proved for every such function, hence hold in particular for the
real logarithm.  Number-to-string formatting (`toLocaleString`) is modelled
by `toString` on `ℚ`; no property proved here depends on the digits of those
strings, only on their placement.
-/

/-- The `SustainabilityCategory` union type from packages/shared/src/index.ts:
critical, needs-support, stable, thriving, corporate. -/
inductive SustainabilityCategory where
  | critical
  | needsSupport
  | stable
  | thriving
  | corporate
deriving DecidableEq, Repr

/-- The string literal of each category as it appears in the TypeScript union. -/
def categoryLabel : SustainabilityCategory → String
  | .critical => "critical"
  | .needsSupport => "needs-support"
  | .stable => "stable"
  | .thriving => "thriving"
  | .corporate => "corporate"

/-- `ScoringInputs` from scoring.ts; every field is optional/nullable. -/
structure ScoringInputs where
  weeklyDownloads : Option ℚ := none
  dependentCount : Option ℚ := none
  ocBalance : Option ℚ := none
  ocYearlyIncome : Option ℚ := none
  githubSponsors : Option Bool := none
  corporateBacking : Option String := none
  maintainerCount : Option ℚ := none
  daysSinceLastPublish : Option ℚ := none
  aiDisruptionFlag : Option Bool := none
  maintainerStatus : Option SustainabilityCategory := none
deriving DecidableEq

/-- `ScoringWeights` from scoring.ts. -/
structure ScoringWeights where
  downloads : ℚ
  dependents : ℚ
  ocBalance : ℚ
  ocIncome : ℚ
  githubSponsors : ℚ
  corporateBacking : ℚ
  maintainerCount : ℚ
  activityPenalty : ℚ
  aiDisruption : ℚ
deriving DecidableEq

/-- `DEFAULT_WEIGHTS` from scoring.ts. -/
def DEFAULT_WEIGHTS : ScoringWeights :=
  { downloads := 10
    dependents := 15
    ocBalance := 20
    ocIncome := 15
    githubSponsors := 5
    corporateBacking := 30
    maintainerCount := 5
    activityPenalty := 10
    aiDisruption := 15 }

/-- One entry of the `factors` array of a `ScoringResult`. -/
structure Factor where
  name : String
  impact : ℚ
  reason : String
deriving DecidableEq

/-- `ScoringResult` from scoring.ts. -/
structure ScoringResult where
  score : ℚ
  category : SustainabilityCategory
  explanation : List String
  factors : List Factor
deriving DecidableEq

/-- The `CATEGORY_THRESHOLDS` constant from scoring.ts. -/
structure CategoryThresholds where
  critical : ℚ
  needsSupport : ℚ
  stable : ℚ
  thriving : ℚ
deriving DecidableEq

/-- `CATEGORY_THRESHOLDS` values: critical 30, needsSupport 50, stable 75, thriving 90. -/
def CATEGORY_THRESHOLDS : CategoryThresholds :=
  { critical := 30, needsSupport := 50, stable := 75, thriving := 90 }

/-- JavaScript `Math.round`: round half toward positive infinity. -/
def jsRound (x : ℚ) : ℤ := ⌊x + 1 / 2⌋

/-- JavaScript truthiness of an optional string: present and non-empty. -/
def strTruthy : Option String → Bool
  | some s => !(s == "")
  | none => false

/-- `normalizeDownloads` from scoring.ts: `min(1, log10(downloads+1)/9)` with a
falsy guard returning 0.  The `log10` function is a parameter (see header). -/
def normalizeDownloads (log10 : ℚ → ℚ) : Option ℚ → ℚ
  | some d => if d = 0 then 0 else min 1 (log10 (d + 1) / 9)
  | none => 0

/-- `normalizeDependents` from scoring.ts: `min(1, log10(dependents+1)/4)`. -/
def normalizeDependents (log10 : ℚ → ℚ) : Option ℚ → ℚ
  | some d => if d = 0 then 0 else min 1 (log10 (d + 1) / 4)
  | none => 0

/-- `normalizeBalance` from scoring.ts: `min(1, balance/100000)`. -/
def normalizeBalance : Option ℚ → ℚ
  | some b => if b = 0 then 0 else min 1 (b / 100000)
  | none => 0

/-- `normalizeIncome` from scoring.ts: `min(1, income/100000)`. -/
def normalizeIncome : Option ℚ → ℚ
  | some i => if i = 0 then 0 else min 1 (i / 100000)
  | none => 0

/-- The `statusScores` lookup table inside `calculateScore`. -/
def statusScores : SustainabilityCategory → ℚ
  | .critical => 15
  | .needsSupport => 40
  | .stable => 65
  | .thriving => 85
  | .corporate => 95

/-- The category-assignment threshold chain at the end of `calculateScore`. -/
def categorize (score : ℚ) : SustainabilityCategory :=
  if score ≤ CATEGORY_THRESHOLDS.critical then .critical
  else if score ≤ CATEGORY_THRESHOLDS.needsSupport then .needsSupport
  else if score ≤ CATEGORY_THRESHOLDS.stable then .stable
  else if score ≤ CATEGORY_THRESHOLDS.thriving then .thriving
  else .corporate

/-- The comparator of the explanation sort in `calculateScore`:
`(a, b) => Math.abs(b.impact) - Math.abs(a.impact)` places `a` no later than
`b` exactly when `|b.impact| ≤ |a.impact|`. -/
def factorGE (a b : Factor) : Prop := |b.impact| ≤ |a.impact|

instance : DecidableRel factorGE := fun a b =>
  decidable_of_iff (|b.impact| ≤ |a.impact|) Iff.rfl

instance : IsTotal Factor factorGE :=
  ⟨fun a b => (le_total |b.impact| |a.impact|).imp id id⟩

instance : IsTrans Factor factorGE :=
  ⟨fun _ _ _ hab hbc => le_trans hbc hab⟩

/-- The stable sort of a copy of the factor list, descending by absolute
impact (JavaScript `Array.prototype.sort` is stable). -/
def sortFactors (l : List Factor) : List Factor := List.insertionSort factorGE l

/-- Number formatting used inside factor reasons (`toLocaleString` with the
locale thousands-grouping abstracted away; no claim depends on the digits). -/
def fmtNum (q : ℚ) : String := toString q

/-- The running-score contributions of the weighted path of `calculateScore`,
in source order: OC balance, OC income, GitHub sponsors, maintainer count,
inactivity penalty, AI-disruption penalty.  Downloads and dependents are
recorded as factors only and never added to the score. -/
def scoreContributions (inputs : ScoringInputs) (weights : ScoringWeights) : ℚ :=
  (if normalizeBalance inputs.ocBalance > 0
    then normalizeBalance inputs.ocBalance * weights.ocBalance else 0)
  + (if normalizeIncome inputs.ocYearlyIncome > 0
    then normalizeIncome inputs.ocYearlyIncome * weights.ocIncome else 0)
  + (if inputs.githubSponsors = some true then weights.githubSponsors else 0)
  + (match inputs.maintainerCount with
    | some n =>
      if 1 < n then min 1 ((n - 1) / 4) * weights.maintainerCount
      else if n = 1 then -(weights.maintainerCount / 2)
      else 0
    | none => 0)
  - (match inputs.daysSinceLastPublish with
    | some d => if 365 < d then min 1 ((d - 365) / 730) * weights.activityPenalty else 0
    | none => 0)
  - (if inputs.aiDisruptionFlag = some true then weights.aiDisruption else 0)

/-- `ecosystemImportance = downloadsFactor * 0.6 + dependentsFactor * 0.4`. -/
def ecosystemImportance (log10 : ℚ → ℚ) (inputs : ScoringInputs) : ℚ :=
  normalizeDownloads log10 inputs.weeklyDownloads * 0.6
    + normalizeDependents log10 inputs.dependentCount * 0.4

/-- The conditional ecosystem-importance penalty step of `calculateScore`:
subtract `importance * 15` when `importance > 0.3` and the running score is
below 60. -/
def applyImportancePenalty (importance score : ℚ) : ℚ :=
  if importance > 0.3 ∧ score < 60 then score - importance * 15 else score

/-- The raw (pre-clamp, pre-round) score of the weighted path: base 50 plus
the contributions, then the conditional importance penalty. -/
def weightedRawScore (log10 : ℚ → ℚ) (inputs : ScoringInputs)
    (weights : ScoringWeights) : ℚ :=
  applyImportancePenalty (ecosystemImportance log10 inputs)
    (50 + scoreContributions inputs weights)

/-- `Math.max(0, Math.min(100, Math.round(score)))` from `calculateScore`. -/
def clampRound (x : ℚ) : ℤ := max 0 (min 100 (jsRound x))

/-- The factor list built by the weighted path of `calculateScore`, in
evaluation (push) order. -/
def weightedFactors (log10 : ℚ → ℚ) (inputs : ScoringInputs)
    (weights : ScoringWeights) : List Factor :=
  (if normalizeDownloads log10 inputs.weeklyDownloads > 0 then
    [⟨"Weekly Downloads",
      -(normalizeDownloads log10 inputs.weeklyDownloads * weights.downloads),
      fmtNum (inputs.weeklyDownloads.getD 0) ++ " weekly downloads"⟩]
   else [])
  ++ (if normalizeDependents log10 inputs.dependentCount > 0 then
    [⟨"Dependent Packages",
      -(normalizeDependents log10 inputs.dependentCount * weights.dependents),
      fmtNum (inputs.dependentCount.getD 0) ++ " packages depend on this"⟩]
   else [])
  ++ (if normalizeBalance inputs.ocBalance > 0 then
    [⟨"OC Balance", normalizeBalance inputs.ocBalance * weights.ocBalance,
      "$" ++ fmtNum (inputs.ocBalance.getD 0) ++ " in OpenCollective"⟩]
   else [])
  ++ (if normalizeIncome inputs.ocYearlyIncome > 0 then
    [⟨"OC Income", normalizeIncome inputs.ocYearlyIncome * weights.ocIncome,
      "$" ++ fmtNum (inputs.ocYearlyIncome.getD 0) ++ "/year from OpenCollective"⟩]
   else [])
  ++ (if inputs.githubSponsors = some true then
    [⟨"GitHub Sponsors", weights.githubSponsors, "Has GitHub Sponsors enabled"⟩]
   else [])
  ++ (match inputs.maintainerCount with
    | some n =>
      if 1 < n then
        [⟨"Maintainer Count", min 1 ((n - 1) / 4) * weights.maintainerCount,
          fmtNum n ++ " maintainers (lower bus factor)"⟩]
      else if n = 1 then
        [⟨"Solo Maintainer", -(weights.maintainerCount / 2),
          "Single maintainer (bus factor risk)"⟩]
      else []
    | none => [])
  ++ (match inputs.daysSinceLastPublish with
    | some d =>
      if 365 < d then
        [⟨"Inactivity", -(min 1 ((d - 365) / 730) * weights.activityPenalty),
          "No releases in " ++ toString ⌊d / 365⌋ ++ " years"⟩]
      else []
    | none => [])
  ++ (if inputs.aiDisruptionFlag = some true then
    [⟨"AI Disruption", -weights.aiDisruption, "Business model at risk from AI tools"⟩]
   else [])
  ++ (if ecosystemImportance log10 inputs > 0.3
        ∧ 50 + scoreContributions inputs weights < 60 then
    [⟨"High Impact, Low Funding", -(ecosystemImportance log10 inputs * 15),
      "Critical infrastructure without adequate funding"⟩]
   else [])

/-- `calculateScore` from scoring.ts.  First the maintainer-status override,
then the corporate-backing override, then the weighted path with clamp,
round, categorization, and the sorted top-3 explanation. -/
def calculateScore (log10 : ℚ → ℚ) (inputs : ScoringInputs)
    (weights : ScoringWeights) : ScoringResult :=
  match inputs.maintainerStatus with
  | some status =>
      { score := statusScores status
        category := status
        explanation := ["Score based on maintainer self-reported status"]
        factors := [⟨"Maintainer Status", 0,
          "Maintainer marked as \"" ++ categoryLabel status ++ "\""⟩] }
  | none =>
      if strTruthy inputs.corporateBacking then
        { score := 95
          category := .corporate
          explanation := ["Backed by " ++ inputs.corporateBacking.getD ""
            ++ " - does not need community funding"]
          factors := [⟨"Corporate Backing", weights.corporateBacking,
            "Maintained by " ++ inputs.corporateBacking.getD ""⟩] }
      else
        { score := (clampRound (weightedRawScore log10 inputs weights) : ℚ)
          category := categorize (clampRound (weightedRawScore log10 inputs weights) : ℚ)
          explanation :=
            ((sortFactors (weightedFactors log10 inputs weights)).take 3).map
              (fun f => f.reason)
          factors := weightedFactors log10 inputs weights }

/-- `AllocationInput` from scoring.ts. -/
structure AllocationInput where
  packageName : String
  score : ℚ
  category : SustainabilityCategory
deriving DecidableEq

/-- `AllocationOutput` from scoring.ts. -/
structure AllocationOutput where
  packageName : String
  percentage : ℚ
  suggestedAmount : ℚ
deriving DecidableEq

/-- The per-package weight of `calculateAllocation`: corporate 0, thriving
0.1, otherwise `max(0, 100 - score)`. -/
def allocWeight (pkg : AllocationInput) : ℚ :=
  if pkg.category = .corporate then 0
  else if pkg.category = .thriving then 0.1
  else max 0 (100 - pkg.score)

/-- The total weight (`weights.reduce((sum, w) => sum + w, 0)`). -/
def totalAllocWeight (packages : List AllocationInput) : ℚ :=
  (packages.map allocWeight).foldl (fun sum w => sum + w) 0

/-- `calculateAllocation` from scoring.ts. -/
def calculateAllocation (packages : List AllocationInput)
    (totalBudget : ℚ) : List AllocationOutput :=
  let weights := packages.map allocWeight
  let totalWeight := totalAllocWeight packages
  if totalWeight = 0 then
    packages.map (fun pkg =>
      { packageName := pkg.packageName, percentage := 0, suggestedAmount := 0 })
  else
    packages.mapIdx (fun i pkg =>
      let weight := weights.getD i 0
      let percentage := weight / totalWeight * 100
      { packageName := pkg.packageName
        percentage := (jsRound (percentage * 10) : ℚ) / 10
        suggestedAmount :=
          (jsRound (weight / totalWeight * totalBudget * 100) : ℚ) / 100 })

/-- One bucket of the `ranges` table of `formatAmountRange` in funding.ts.
An absent `max` stands for `Infinity`. -/
structure AmountRange where
  rmin : ℚ
  rmax : Option ℚ
  label : String
deriving DecidableEq

/-- The `ranges` table of `formatAmountRange`. -/
def amountRanges : List AmountRange :=
  [⟨0, some 100, "<$100"⟩,
   ⟨100, some 500, "$100-500"⟩,
   ⟨500, some 1000, "$500-1K"⟩,
   ⟨1000, some 5000, "$1K-5K"⟩,
   ⟨5000, some 10000, "$5K-10K"⟩,
   ⟨10000, some 25000, "$10K-25K"⟩,
   ⟨25000, some 50000, "$25K-50K"⟩,
   ⟨50000, some 100000, "$50K-100K"⟩,
   ⟨100000, some 250000, "$100K-250K"⟩,
   ⟨250000, some 500000, "$250K-500K"⟩,
   ⟨500000, some 1000000, "$500K-1M"⟩,
   ⟨1000000, none, ">$1M"⟩]

/-- The upper-bound test `amount < range.max`, where an absent bound stands
for `Infinity` (always true). -/
def belowMax (amount : ℚ) : Option ℚ → Prop
  | some m => amount < m
  | none => True

instance (amount : ℚ) (m : Option ℚ) : Decidable (belowMax amount m) :=
  match m with
  | some b => inferInstanceAs (Decidable (amount < b))
  | none => inferInstanceAs (Decidable True)

/-- The `for (const range of ranges)` loop of `formatAmountRange`: return the
label of the first bucket with `min ≤ amount < max`. -/
def findRange (amount : ℚ) : List AmountRange → Option String
  | [] => none
  | r :: rest =>
    if r.rmin ≤ amount ∧ belowMax amount r.rmax then some r.label
    else findRange amount rest

/-- `formatAmountRange` from funding.ts: null/zero/negative give null,
otherwise the matching bucket label (with the unreachable trailing
`return ">$1M"` as fallback). -/
def formatAmountRange (amount : Option ℚ) : Option String :=
  match amount with
  | none => none
  | some a =>
    if a ≤ 0 then none
    else some ((findRange a amountRanges).getD ">$1M")

/-- `formatMonthlyRange` from funding.ts: divide the yearly amount by 12,
format, append "/mo". -/
def formatMonthlyRange (yearlyAmount : Option ℚ) : Option String :=
  match yearlyAmount with
  | none => none
  | some y =>
    if y ≤ 0 then none
    else
      match formatAmountRange (some (y / 12)) with
      | some range => some (range ++ "/mo")
      | none => none

/-- `TopSponsor` from funding.ts. -/
structure TopSponsor where
  name : String
  imageUrl : Option String
  profileUrl : String
deriving DecidableEq

/-- The raw GitHub sponsor shape consumed by `buildFundingSummary`
(`avatarUrl` from the crawler, or an already-normalized `imageUrl`). -/
structure RawSponsor where
  name : String
  avatarUrl : Option String := none
  imageUrl : Option String := none
  profileUrl : String
deriving DecidableEq

/-- The funding platform tag of a `FundingSummary`. -/
inductive Platform where
  | opencollective
  | github
deriving DecidableEq, Repr

/-- `FundingSummary` from funding.ts. -/
structure FundingSummary where
  platform : Platform
  profileUrl : String
  balanceRange : Option String
  monthlyIncomeRange : Option String
  sponsorCount : ℚ
  goalProgress : Option ℚ
  topSponsors : List TopSponsor
deriving DecidableEq

/-- `PackageWithFunding` from funding.ts. -/
structure PackageWithFunding where
  ocSlug : Option String := none
  ocBalance : Option ℚ := none
  ocYearlyIncome : Option ℚ := none
  ocBackersCount : Option ℚ := none
  ocGoalAmount : Option ℚ := none
  ocGoalProgress : Option ℚ := none
  ocTopSponsors : Option (List TopSponsor) := none
  ghHasSponsorsListing : Option Bool := none
  ghSponsorsCount : Option ℚ := none
  ghTopSponsors : Option (List RawSponsor) := none
  repositoryOwner : Option String := none
deriving DecidableEq

/-- `buildFundingSummary` from funding.ts: OpenCollective first when the slug
is truthy, otherwise GitHub Sponsors when the listing flag is true and the
repository owner is truthy, otherwise null. -/
def buildFundingSummary (pkg : PackageWithFunding) : Option FundingSummary :=
  if strTruthy pkg.ocSlug then
    some
      { platform := .opencollective
        profileUrl := "https://opencollective.com/" ++ pkg.ocSlug.getD ""
        balanceRange := formatAmountRange pkg.ocBalance
        monthlyIncomeRange := formatMonthlyRange pkg.ocYearlyIncome
        sponsorCount := pkg.ocBackersCount.getD 0
        goalProgress := pkg.ocGoalProgress
        topSponsors := pkg.ocTopSponsors.getD [] }
  else if pkg.ghHasSponsorsListing = some true ∧ strTruthy pkg.repositoryOwner then
    some
      { platform := .github
        profileUrl := "https://github.com/sponsors/" ++ pkg.repositoryOwner.getD ""
        balanceRange := none
        monthlyIncomeRange := none
        sponsorCount := pkg.ghSponsorsCount.getD 0
        goalProgress := none
        topSponsors := (pkg.ghTopSponsors.getD []).map (fun s =>
          { name := s.name
            imageUrl := s.avatarUrl.or s.imageUrl
            profileUrl := s.profileUrl }) }
  else none

/-- `hasFundingData` from funding.ts. -/
def hasFundingData (pkg : PackageWithFunding) : Bool :=
  strTruthy pkg.ocSlug
    || (pkg.ghHasSponsorsListing == some true && strTruthy pkg.repositoryOwner)

/-- Concrete allocation inputs (one needs-support package with weight 50 and
one critical package with weight 100) on which cent rounding breaks the exact
tenfold budget-scaling identity. -/
def scalingPackages : List AllocationInput :=
  [⟨"pkg-a", 50, .needsSupport⟩, ⟨"pkg-b", 0, .critical⟩]

/-- A package whose OpenCollective slug is present but empty (falsy in the
source) while complete GitHub Sponsors data is also present. -/
def emptySlugPackage : PackageWithFunding :=
  { ocSlug := some ""
    ocBalance := some 10000
    ghHasSponsorsListing := some true
    ghSponsorsCount := some 5
    repositoryOwner := some "octo" }

/-- All-corporate allocation inputs: the total weight is zero. -/
def corporatePackages : List AllocationInput :=
  [⟨"corp1", 95, .corporate⟩, ⟨"corp2", 95, .corporate⟩]

theorem jsRound_mono {x y : ℚ} (h : x ≤ y) : jsRound x ≤ jsRound y :=
  Int.floor_le_floor (by linarith)

theorem clampRound_mono {x y : ℚ} (h : x ≤ y) : clampRound x ≤ clampRound y :=
  max_le_max le_rfl (min_le_min le_rfl (jsRound_mono h))

theorem clampRound_nonneg (x : ℚ) : 0 ≤ clampRound x := le_max_left 0 _

theorem clampRound_le_100 (x : ℚ) : clampRound x ≤ 100 :=
  max_le (by norm_num) (min_le_left 100 _)

theorem normalizeBalance_mono {b1 b2 : ℚ} (h : b1 ≤ b2) :
    normalizeBalance (some b1) ≤ normalizeBalance (some b2) := by
  simp only [normalizeBalance]
  split_ifs with h1 h2 h2
  · exact le_refl 0
  · have hb2 : 0 < b2 := lt_of_le_of_ne (h1 ▸ h) (Ne.symm h2)
    exact le_min (by norm_num) (by positivity)
  · have hb1 : b1 < 0 := lt_of_le_of_ne (h2 ▸ h) h1
    have hdiv : b1 / 100000 < 0 := div_neg_of_neg_of_pos hb1 (by norm_num)
    exact le_trans (min_le_right _ _) hdiv.le
  · refine min_le_min le_rfl ?_
    have h100 : (0:ℚ) < 100000 := by norm_num
    exact (div_le_div_iff_of_pos_right h100).mpr h

theorem normalizeBalance_cap {b : ℚ} (hb : 100000 ≤ b) :
    normalizeBalance (some b) = 1 := by
  simp only [normalizeBalance]
  rw [if_neg (by intro h0; rw [h0] at hb; linarith)]
  exact min_eq_left (by rw [le_div_iff₀ (by norm_num)]; linarith)

theorem applyImportancePenalty_mono (e : ℚ) {x y : ℚ} (h : x ≤ y) :
    applyImportancePenalty e x ≤ applyImportancePenalty e y := by
  unfold applyImportancePenalty
  split_ifs with h1 h2 h2
  · linarith
  · have he : (0.3 : ℚ) < e := h1.1
    linarith
  · push_neg at h1
    have := h1 h2.1
    linarith [h2.2]
  · exact h

/-- C10: the maintainer-status override table is consistent with the score
threshold categorization: for every category c, feeding the override score
for c through the threshold mapping yields c again. -/
theorem statusScores_categorize_roundtrip :
    ∀ c : SustainabilityCategory, categorize (statusScores c) = c := by
  intro c
  cases c <;> rfl

/-- C2: whenever `maintainerStatus` is present, `calculateScore` returns
exactly the lookup-table score (critical 15, needs-support 40, stable 65,
thriving 85, corporate 95) and the input status as category, for every other
input field, every weight configuration and every log10 model. -/
theorem calculateScore_maintainerStatus_override (log10 : ℚ → ℚ)
    (inputs : ScoringInputs) (weights : ScoringWeights)
    (c : SustainabilityCategory) (h : inputs.maintainerStatus = some c) :
    (calculateScore log10 inputs weights).score =
      (match c with
        | .critical => 15
        | .needsSupport => 40
        | .stable => 65
        | .thriving => 85
        | .corporate => 95)
    ∧ (calculateScore log10 inputs weights).category = c := by
  cases c <;> simp [calculateScore, h, statusScores]

/-- Witness for C2 at a concrete input: maintainerStatus critical with a
huge balance still yields score 15 and category critical. -/
theorem calculateScore_maintainerStatus_override_witness :
    (calculateScore (fun _ => 0)
        { maintainerStatus := some .critical, ocBalance := some 999999 }
        DEFAULT_WEIGHTS).score = 15
    ∧ (calculateScore (fun _ => 0)
        { maintainerStatus := some .critical, ocBalance := some 999999 }
        DEFAULT_WEIGHTS).category = .critical :=
  calculateScore_maintainerStatus_override (fun _ => 0)
    { maintainerStatus := some .critical, ocBalance := some 999999 }
    DEFAULT_WEIGHTS .critical rfl

/-- C3: with no maintainerStatus and a non-empty corporateBacking name,
`calculateScore` returns score 95, category corporate, and exactly one
factor record whose impact is `weights.corporateBacking`, regardless of all
other fields. -/
theorem calculateScore_corporate_override (log10 : ℚ → ℚ)
    (inputs : ScoringInputs) (weights : ScoringWeights) (company : String)
    (hm : inputs.maintainerStatus = none)
    (hc : inputs.corporateBacking = some company) (hne : company ≠ "") :
    (calculateScore log10 inputs weights).score = 95
    ∧ (calculateScore log10 inputs weights).category = .corporate
    ∧ (calculateScore log10 inputs weights).factors =
        [⟨"Corporate Backing", weights.corporateBacking,
          "Maintained by " ++ company⟩] := by
  simp [calculateScore, hm, hc, strTruthy, hne]

/-- Witness for C3 at a concrete input: corporate backing "Acme" with other
risk factors set still yields the fixed corporate result. -/
theorem calculateScore_corporate_override_witness :
    (calculateScore (fun _ => 0)
        { corporateBacking := some "Acme", aiDisruptionFlag := some true }
        DEFAULT_WEIGHTS).score = 95
    ∧ (calculateScore (fun _ => 0)
        { corporateBacking := some "Acme", aiDisruptionFlag := some true }
        DEFAULT_WEIGHTS).category = .corporate
    ∧ (calculateScore (fun _ => 0)
        { corporateBacking := some "Acme", aiDisruptionFlag := some true }
        DEFAULT_WEIGHTS).factors =
        [⟨"Corporate Backing", 30, "Maintained by Acme"⟩] :=
  calculateScore_corporate_override (fun _ => 0)
    { corporateBacking := some "Acme", aiDisruptionFlag := some true }
    DEFAULT_WEIGHTS "Acme" rfl rfl (by decide)

/-- C1: for every input, every weight configuration and every log10 model,
the score returned by `calculateScore` is an integer between 0 and 100,
on the weighted path as well as on both early-return override paths. -/
theorem calculateScore_score_in_range (log10 : ℚ → ℚ)
    (inputs : ScoringInputs) (weights : ScoringWeights) :
    0 ≤ (calculateScore log10 inputs weights).score
    ∧ (calculateScore log10 inputs weights).score ≤ 100
    ∧ ∃ n : ℤ, (calculateScore log10 inputs weights).score = (n : ℚ) := by
  rcases hm : inputs.maintainerStatus with _ | status
  · by_cases hc : strTruthy inputs.corporateBacking
    · have hs : (calculateScore log10 inputs weights).score = 95 := by
        simp [calculateScore, hm, hc]
      rw [hs]
      exact ⟨by norm_num, by norm_num, 95, by norm_num⟩
    · have hs : (calculateScore log10 inputs weights).score =
          ((clampRound (weightedRawScore log10 inputs weights) : ℤ) : ℚ) := by
        simp [calculateScore, hm, hc]
      rw [hs]
      refine ⟨?_, ?_, clampRound (weightedRawScore log10 inputs weights), rfl⟩
      · exact_mod_cast clampRound_nonneg (weightedRawScore log10 inputs weights)
      · exact_mod_cast clampRound_le_100 (weightedRawScore log10 inputs weights)
  · have hs : (calculateScore log10 inputs weights).score = statusScores status := by
      simp [calculateScore, hm]
    rw [hs]
    cases status
    · exact ⟨by norm_num [statusScores], by norm_num [statusScores], 15, by norm_num [statusScores]⟩
    · exact ⟨by norm_num [statusScores], by norm_num [statusScores], 40, by norm_num [statusScores]⟩
    · exact ⟨by norm_num [statusScores], by norm_num [statusScores], 65, by norm_num [statusScores]⟩
    · exact ⟨by norm_num [statusScores], by norm_num [statusScores], 85, by norm_num [statusScores]⟩
    · exact ⟨by norm_num [statusScores], by norm_num [statusScores], 95, by norm_num [statusScores]⟩

/-- C6: a zero total weight (for example all-corporate input) is not an
error: every output row keeps its package name with percentage 0 and
suggestedAmount 0, and the empty input list yields the empty output list. -/
theorem calculateAllocation_zero_weight (packages : List AllocationInput)
    (budget : ℚ) :
    (totalAllocWeight packages = 0 →
      calculateAllocation packages budget =
        packages.map (fun pkg => ⟨pkg.packageName, 0, 0⟩))
    ∧ calculateAllocation [] budget = [] := by
  constructor
  · intro h
    simp [calculateAllocation, h]
  · simp [calculateAllocation, totalAllocWeight]

theorem allocWeight_corporate (name : String) (score : ℚ) :
    allocWeight ⟨name, score, .corporate⟩ = 0 := by
  simp [allocWeight]

theorem allocWeight_at (name : String) (score : ℚ) (c : SustainabilityCategory)
    (h1 : c ≠ .corporate) (h2 : c ≠ .thriving) :
    allocWeight ⟨name, score, c⟩ = max 0 (100 - score) := by
  simp [allocWeight, h1, h2]

/-- Witness for C6: two corporate packages have total weight 0 and receive
all-zero allocations. -/
theorem calculateAllocation_zero_weight_witness :
    totalAllocWeight corporatePackages = 0
    ∧ calculateAllocation corporatePackages 1000 =
        [⟨"corp1", 0, 0⟩, ⟨"corp2", 0, 0⟩] := by
  have h0 : totalAllocWeight corporatePackages = 0 := by
    simp only [totalAllocWeight, corporatePackages, List.map_cons, List.map_nil,
      List.foldl_cons, List.foldl_nil]
    rw [allocWeight_corporate, allocWeight_corporate]
    norm_num
  refine ⟨h0, ((calculateAllocation_zero_weight corporatePackages 1000).1 h0).trans ?_⟩
  simp [corporatePackages]

theorem calculateAllocation_getD (packages : List AllocationInput) (b : ℚ)
    (i : ℕ) (h : i < packages.length) (hT : totalAllocWeight packages ≠ 0) :
    (calculateAllocation packages b).getD i ⟨"", 0, 0⟩ =
      ⟨packages[i].packageName,
       (jsRound (allocWeight packages[i] / totalAllocWeight packages * 100 * 10) : ℚ) / 10,
       (jsRound (allocWeight packages[i] / totalAllocWeight packages * b * 100) : ℚ) / 100⟩ := by
  simp only [calculateAllocation]
  rw [if_neg hT]
  rw [List.getD_eq_getElem?_getD,
    List.getElem?_eq_getElem (by rw [List.length_mapIdx]; exact h)]
  simp only [Option.getD_some, List.getElem_mapIdx]
  rw [List.getD_eq_getElem?_getD, List.getElem?_map, List.getElem?_eq_getElem h]
  rfl

/-- C4 counterexample: with one needs-support package of score 50 and one
critical package of score 0, cent rounding gives
`allocate(pkgs, 1000)[0].suggestedAmount = 333.33` while
`10 * allocate(pkgs, 100)[0].suggestedAmount = 333.30`, refuting exact
tenfold scaling of `suggestedAmount`. -/
theorem calculateAllocation_budget_scaling_cex :
    ¬ ((calculateAllocation scalingPackages 1000).getD 0 ⟨"", 0, 0⟩).suggestedAmount =
      10 * ((calculateAllocation scalingPackages 100).getD 0 ⟨"", 0, 0⟩).suggestedAmount := by
  have ht : totalAllocWeight scalingPackages = 150 := by
    simp only [totalAllocWeight, scalingPackages, List.map_cons, List.map_nil,
      List.foldl_cons, List.foldl_nil]
    rw [allocWeight_at _ _ _ (by decide) (by decide),
      allocWeight_at _ _ _ (by decide) (by decide)]
    norm_num
  have hT : totalAllocWeight scalingPackages ≠ 0 := by rw [ht]; norm_num
  have h0 : (0:ℕ) < scalingPackages.length := by simp [scalingPackages]
  rw [calculateAllocation_getD scalingPackages 1000 0 h0 hT,
      calculateAllocation_getD scalingPackages 100 0 h0 hT]
  have hw : allocWeight scalingPackages[0] = 50 := by
    rw [show scalingPackages[0] = (⟨"pkg-a", 50, .needsSupport⟩ : AllocationInput) from rfl]
    rw [allocWeight_at _ _ _ (by decide) (by decide)]
    norm_num
  rw [hw, ht]
  simp only [jsRound]
  norm_num

/-- C4 (amended): `percentage` is identical for budgets 100 and 1000, the
unrounded amount `weight/totalWeight * budget` scales exactly tenfold, and
the returned cent-rounded `suggestedAmount` satisfies tenfold scaling only up
to the rounding bound 11/200 = 0.055 dollars. -/
theorem calculateAllocation_budget_scaling (packages : List AllocationInput)
    (i : ℕ) (h : i < packages.length) :
    ((calculateAllocation packages 1000).getD i ⟨"", 0, 0⟩).percentage =
      ((calculateAllocation packages 100).getD i ⟨"", 0, 0⟩).percentage
    ∧ allocWeight packages[i] / totalAllocWeight packages * 1000 =
        10 * (allocWeight packages[i] / totalAllocWeight packages * 100)
    ∧ |((calculateAllocation packages 1000).getD i ⟨"", 0, 0⟩).suggestedAmount -
        10 * ((calculateAllocation packages 100).getD i ⟨"", 0, 0⟩).suggestedAmount| ≤
        11 / 200 := by
  by_cases hT : totalAllocWeight packages = 0
  · have hz : ∀ b : ℚ, (calculateAllocation packages b).getD i ⟨"", 0, 0⟩ =
        ⟨packages[i].packageName, 0, 0⟩ := by
      intro b
      simp only [calculateAllocation, hT, if_pos]
      rw [List.getD_eq_getElem?_getD, List.getElem?_map, List.getElem?_eq_getElem h]
      rfl
    rw [hz 1000, hz 100]
    exact ⟨rfl, by ring, by norm_num⟩
  · rw [calculateAllocation_getD packages 1000 i h hT,
      calculateAllocation_getD packages 100 i h hT]
    refine ⟨rfl, by ring, ?_⟩
    set y : ℚ := allocWeight packages[i] / totalAllocWeight packages * 100 * 100 with hy
    have h1000 : allocWeight packages[i] / totalAllocWeight packages * 1000 * 100 =
        10 * y := by rw [hy]; ring
    rw [h1000]
    simp only [jsRound]
    have f1 : ((⌊10 * y + 1 / 2⌋ : ℤ) : ℚ) ≤ 10 * y + 1 / 2 := Int.floor_le _
    have f2 : 10 * y + 1 / 2 - 1 < ((⌊10 * y + 1 / 2⌋ : ℤ) : ℚ) := Int.sub_one_lt_floor _
    have f3 : ((⌊y + 1 / 2⌋ : ℤ) : ℚ) ≤ y + 1 / 2 := Int.floor_le _
    have f4 : y + 1 / 2 - 1 < ((⌊y + 1 / 2⌋ : ℤ) : ℚ) := Int.sub_one_lt_floor _
    rw [abs_le]
    constructor <;> linarith

/-- Witness for the amended C4 at a concrete input: index 0 of the two-package
example satisfies the rounding-tolerant scaling bound. -/
theorem calculateAllocation_budget_scaling_witness :
    0 < scalingPackages.length
    ∧ |((calculateAllocation scalingPackages 1000).getD 0 ⟨"", 0, 0⟩).suggestedAmount -
        10 * ((calculateAllocation scalingPackages 100).getD 0 ⟨"", 0, 0⟩).suggestedAmount| ≤
        11 / 200 :=
  ⟨by simp [scalingPackages],
    (calculateAllocation_budget_scaling scalingPackages 0 (by simp [scalingPackages])).2.2⟩

theorem findRange_cons_neg (a : ℚ) (r : AmountRange) (rest : List AmountRange)
    (h : ¬(r.rmin ≤ a ∧ belowMax a r.rmax)) :
    findRange a (r :: rest) = findRange a rest := by
  simp only [findRange]
  exact if_neg h

theorem findRange_cons_pos (a : ℚ) (r : AmountRange) (rest : List AmountRange)
    (h1 : r.rmin ≤ a) (h2 : belowMax a r.rmax) :
    findRange a (r :: rest) = some r.label := by
  simp only [findRange]
  exact if_pos ⟨h1, h2⟩

/-- C7: `formatAmountRange` returns none for absent, zero and negative
amounts, and for every positive amount returns the label of the unique
half-open bucket containing it, inclusive on the lower edge only. -/
theorem formatAmountRange_buckets (a : ℚ) :
    formatAmountRange none = none
    ∧ (a ≤ 0 → formatAmountRange (some a) = none)
    ∧ (0 < a → a < 100 → formatAmountRange (some a) = some "<$100")
    ∧ (100 ≤ a → a < 500 → formatAmountRange (some a) = some "$100-500")
    ∧ (500 ≤ a → a < 1000 → formatAmountRange (some a) = some "$500-1K")
    ∧ (1000 ≤ a → a < 5000 → formatAmountRange (some a) = some "$1K-5K")
    ∧ (5000 ≤ a → a < 10000 → formatAmountRange (some a) = some "$5K-10K")
    ∧ (10000 ≤ a → a < 25000 → formatAmountRange (some a) = some "$10K-25K")
    ∧ (25000 ≤ a → a < 50000 → formatAmountRange (some a) = some "$25K-50K")
    ∧ (50000 ≤ a → a < 100000 → formatAmountRange (some a) = some "$50K-100K")
    ∧ (100000 ≤ a → a < 250000 → formatAmountRange (some a) = some "$100K-250K")
    ∧ (250000 ≤ a → a < 500000 → formatAmountRange (some a) = some "$250K-500K")
    ∧ (500000 ≤ a → a < 1000000 → formatAmountRange (some a) = some "$500K-1M")
    ∧ (1000000 ≤ a → formatAmountRange (some a) = some ">$1M")
    := by
  refine ⟨rfl, ?_, ?_, ?_, ?_, ?_, ?_, ?_, ?_, ?_, ?_, ?_, ?_, ?_⟩
  · intro h1
    simp [formatAmountRange, h1]
  · intro h1 h2
    simp only [formatAmountRange]
    rw [if_neg (by linarith)]
    simp only [amountRanges]
    rw [findRange_cons_pos a ⟨0, some 100, "<$100"⟩ _ (le_of_lt h1) h2]
    rfl
  · intro h1 h2
    simp only [formatAmountRange]
    rw [if_neg (by linarith)]
    simp only [amountRanges]
    rw [findRange_cons_neg _ _ _ (by rintro ⟨-, hx⟩; simp only [belowMax] at hx; linarith)]
    rw [findRange_cons_pos a ⟨100, some 500, "$100-500"⟩ _ h1 h2]
    rfl
  · intro h1 h2
    simp only [formatAmountRange]
    rw [if_neg (by linarith)]
    simp only [amountRanges]
    rw [findRange_cons_neg _ _ _ (by rintro ⟨-, hx⟩; simp only [belowMax] at hx; linarith)]
    rw [findRange_cons_neg _ _ _ (by rintro ⟨-, hx⟩; simp only [belowMax] at hx; linarith)]
    rw [findRange_cons_pos a ⟨500, some 1000, "$500-1K"⟩ _ h1 h2]
    rfl
  · intro h1 h2
    simp only [formatAmountRange]
    rw [if_neg (by linarith)]
    simp only [amountRanges]
    rw [findRange_cons_neg _ _ _ (by rintro ⟨-, hx⟩; simp only [belowMax] at hx; linarith)]
    rw [findRange_cons_neg _ _ _ (by rintro ⟨-, hx⟩; simp only [belowMax] at hx; linarith)]
    rw [findRange_cons_neg _ _ _ (by rintro ⟨-, hx⟩; simp only [belowMax] at hx; linarith)]
    rw [findRange_cons_pos a ⟨1000, some 5000, "$1K-5K"⟩ _ h1 h2]
    rfl
  · intro h1 h2
    simp only [formatAmountRange]
    rw [if_neg (by linarith)]
    simp only [amountRanges]
    rw [findRange_cons_neg _ _ _ (by rintro ⟨-, hx⟩; simp only [belowMax] at hx; linarith)]
    rw [findRange_cons_neg _ _ _ (by rintro ⟨-, hx⟩; simp only [belowMax] at hx; linarith)]
    rw [findRange_cons_neg _ _ _ (by rintro ⟨-, hx⟩; simp only [belowMax] at hx; linarith)]
    rw [findRange_cons_neg _ _ _ (by rintro ⟨-, hx⟩; simp only [belowMax] at hx; linarith)]
    rw [findRange_cons_pos a ⟨5000, some 10000, "$5K-10K"⟩ _ h1 h2]
    rfl
  · intro h1 h2
    simp only [formatAmountRange]
    rw [if_neg (by linarith)]
    simp only [amountRanges]
    rw [findRange_cons_neg _ _ _ (by rintro ⟨-, hx⟩; simp only [belowMax] at hx; linarith)]
    rw [findRange_cons_neg _ _ _ (by rintro ⟨-, hx⟩; simp only [belowMax] at hx; linarith)]
    rw [findRange_cons_neg _ _ _ (by rintro ⟨-, hx⟩; simp only [belowMax] at hx; linarith)]
    rw [findRange_cons_neg _ _ _ (by rintro ⟨-, hx⟩; simp only [belowMax] at hx; linarith)]
    rw [findRange_cons_neg _ _ _ (by rintro ⟨-, hx⟩; simp only [belowMax] at hx; linarith)]
    rw [findRange_cons_pos a ⟨10000, some 25000, "$10K-25K"⟩ _ h1 h2]
    rfl
  · intro h1 h2
    simp only [formatAmountRange]
    rw [if_neg (by linarith)]
    simp only [amountRanges]
    rw [findRange_cons_neg _ _ _ (by rintro ⟨-, hx⟩; simp only [belowMax] at hx; linarith)]
    rw [findRange_cons_neg _ _ _ (by rintro ⟨-, hx⟩; simp only [belowMax] at hx; linarith)]
    rw [findRange_cons_neg _ _ _ (by rintro ⟨-, hx⟩; simp only [belowMax] at hx; linarith)]
    rw [findRange_cons_neg _ _ _ (by rintro ⟨-, hx⟩; simp only [belowMax] at hx; linarith)]
    rw [findRange_cons_neg _ _ _ (by rintro ⟨-, hx⟩; simp only [belowMax] at hx; linarith)]
    rw [findRange_cons_neg _ _ _ (by rintro ⟨-, hx⟩; simp only [belowMax] at hx; linarith)]
    rw [findRange_cons_pos a ⟨25000, some 50000, "$25K-50K"⟩ _ h1 h2]
    rfl
  · intro h1 h2
    simp only [formatAmountRange]
    rw [if_neg (by linarith)]
    simp only [amountRanges]
    rw [findRange_cons_neg _ _ _ (by rintro ⟨-, hx⟩; simp only [belowMax] at hx; linarith)]
    rw [findRange_cons_neg _ _ _ (by rintro ⟨-, hx⟩; simp only [belowMax] at hx; linarith)]
    rw [findRange_cons_neg _ _ _ (by rintro ⟨-, hx⟩; simp only [belowMax] at hx; linarith)]
    rw [findRange_cons_neg _ _ _ (by rintro ⟨-, hx⟩; simp only [belowMax] at hx; linarith)]
    rw [findRange_cons_neg _ _ _ (by rintro ⟨-, hx⟩; simp only [belowMax] at hx; linarith)]
    rw [findRange_cons_neg _ _ _ (by rintro ⟨-, hx⟩; simp only [belowMax] at hx; linarith)]
    rw [findRange_cons_neg _ _ _ (by rintro ⟨-, hx⟩; simp only [belowMax] at hx; linarith)]
    rw [findRange_cons_pos a ⟨50000, some 100000, "$50K-100K"⟩ _ h1 h2]
    rfl
  · intro h1 h2
    simp only [formatAmountRange]
    rw [if_neg (by linarith)]
    simp only [amountRanges]
    rw [findRange_cons_neg _ _ _ (by rintro ⟨-, hx⟩; simp only [belowMax] at hx; linarith)]
    rw [findRange_cons_neg _ _ _ (by rintro ⟨-, hx⟩; simp only [belowMax] at hx; linarith)]
    rw [findRange_cons_neg _ _ _ (by rintro ⟨-, hx⟩; simp only [belowMax] at hx; linarith)]
    rw [findRange_cons_neg _ _ _ (by rintro ⟨-, hx⟩; simp only [belowMax] at hx; linarith)]
    rw [findRange_cons_neg _ _ _ (by rintro ⟨-, hx⟩; simp only [belowMax] at hx; linarith)]
    rw [findRange_cons_neg _ _ _ (by rintro ⟨-, hx⟩; simp only [belowMax] at hx; linarith)]
    rw [findRange_cons_neg _ _ _ (by rintro ⟨-, hx⟩; simp only [belowMax] at hx; linarith)]
    rw [findRange_cons_neg _ _ _ (by rintro ⟨-, hx⟩; simp only [belowMax] at hx; linarith)]
    rw [findRange_cons_pos a ⟨100000, some 250000, "$100K-250K"⟩ _ h1 h2]
    rfl
  · intro h1 h2
    simp only [formatAmountRange]
    rw [if_neg (by linarith)]
    simp only [amountRanges]
    rw [findRange_cons_neg _ _ _ (by rintro ⟨-, hx⟩; simp only [belowMax] at hx; linarith)]
    rw [findRange_cons_neg _ _ _ (by rintro ⟨-, hx⟩; simp only [belowMax] at hx; linarith)]
    rw [findRange_cons_neg _ _ _ (by rintro ⟨-, hx⟩; simp only [belowMax] at hx; linarith)]
    rw [findRange_cons_neg _ _ _ (by rintro ⟨-, hx⟩; simp only [belowMax] at hx; linarith)]
    rw [findRange_cons_neg _ _ _ (by rintro ⟨-, hx⟩; simp only [belowMax] at hx; linarith)]
    rw [findRange_cons_neg _ _ _ (by rintro ⟨-, hx⟩; simp only [belowMax] at hx; linarith)]
    rw [findRange_cons_neg _ _ _ (by rintro ⟨-, hx⟩; simp only [belowMax] at hx; linarith)]
    rw [findRange_cons_neg _ _ _ (by rintro ⟨-, hx⟩; simp only [belowMax] at hx; linarith)]
    rw [findRange_cons_neg _ _ _ (by rintro ⟨-, hx⟩; simp only [belowMax] at hx; linarith)]
    rw [findRange_cons_pos a ⟨250000, some 500000, "$250K-500K"⟩ _ h1 h2]
    rfl
  · intro h1 h2
    simp only [formatAmountRange]
    rw [if_neg (by linarith)]
    simp only [amountRanges]
    rw [findRange_cons_neg _ _ _ (by rintro ⟨-, hx⟩; simp only [belowMax] at hx; linarith)]
    rw [findRange_cons_neg _ _ _ (by rintro ⟨-, hx⟩; simp only [belowMax] at hx; linarith)]
    rw [findRange_cons_neg _ _ _ (by rintro ⟨-, hx⟩; simp only [belowMax] at hx; linarith)]
    rw [findRange_cons_neg _ _ _ (by rintro ⟨-, hx⟩; simp only [belowMax] at hx; linarith)]
    rw [findRange_cons_neg _ _ _ (by rintro ⟨-, hx⟩; simp only [belowMax] at hx; linarith)]
    rw [findRange_cons_neg _ _ _ (by rintro ⟨-, hx⟩; simp only [belowMax] at hx; linarith)]
    rw [findRange_cons_neg _ _ _ (by rintro ⟨-, hx⟩; simp only [belowMax] at hx; linarith)]
    rw [findRange_cons_neg _ _ _ (by rintro ⟨-, hx⟩; simp only [belowMax] at hx; linarith)]
    rw [findRange_cons_neg _ _ _ (by rintro ⟨-, hx⟩; simp only [belowMax] at hx; linarith)]
    rw [findRange_cons_neg _ _ _ (by rintro ⟨-, hx⟩; simp only [belowMax] at hx; linarith)]
    rw [findRange_cons_pos a ⟨500000, some 1000000, "$500K-1M"⟩ _ h1 h2]
    rfl
  · intro h1
    simp only [formatAmountRange]
    rw [if_neg (by linarith)]
    simp only [amountRanges]
    rw [findRange_cons_neg _ _ _ (by rintro ⟨-, hx⟩; simp only [belowMax] at hx; linarith)]
    rw [findRange_cons_neg _ _ _ (by rintro ⟨-, hx⟩; simp only [belowMax] at hx; linarith)]
    rw [findRange_cons_neg _ _ _ (by rintro ⟨-, hx⟩; simp only [belowMax] at hx; linarith)]
    rw [findRange_cons_neg _ _ _ (by rintro ⟨-, hx⟩; simp only [belowMax] at hx; linarith)]
    rw [findRange_cons_neg _ _ _ (by rintro ⟨-, hx⟩; simp only [belowMax] at hx; linarith)]
    rw [findRange_cons_neg _ _ _ (by rintro ⟨-, hx⟩; simp only [belowMax] at hx; linarith)]
    rw [findRange_cons_neg _ _ _ (by rintro ⟨-, hx⟩; simp only [belowMax] at hx; linarith)]
    rw [findRange_cons_neg _ _ _ (by rintro ⟨-, hx⟩; simp only [belowMax] at hx; linarith)]
    rw [findRange_cons_neg _ _ _ (by rintro ⟨-, hx⟩; simp only [belowMax] at hx; linarith)]
    rw [findRange_cons_neg _ _ _ (by rintro ⟨-, hx⟩; simp only [belowMax] at hx; linarith)]
    rw [findRange_cons_neg _ _ _ (by rintro ⟨-, hx⟩; simp only [belowMax] at hx; linarith)]
    rw [findRange_cons_pos a ⟨1000000, none, ">$1M"⟩ _ h1 trivial]
    rfl

/-- Witness for C7 at a concrete input: 100 sits on a boundary and falls in
the higher bucket "$100-500". -/
theorem formatAmountRange_buckets_witness :
    formatAmountRange (some 100) = some "$100-500" :=
  (formatAmountRange_buckets 100).2.2.2.1 (by norm_num) (by norm_num)

/-- C8 counterexample: in `emptySlugPackage` the OpenCollective slug is
present (but empty, hence falsy in the source), and `buildFundingSummary`
returns a github summary instead of an opencollective one, refuting the
claim that slug presence alone selects OpenCollective. -/
theorem buildFundingSummary_present_slug_cex :
    emptySlugPackage.ocSlug.isSome = true
    ∧ (buildFundingSummary emptySlugPackage).map (fun f => f.platform) =
        some Platform.github :=
  ⟨rfl, rfl⟩

/-- C8 (amended): selection is platform priority on truthy (present and
non-empty) identifiers: a non-empty slug always yields an opencollective
summary even when all GitHub fields are present; otherwise a github summary
is returned exactly when the listing flag is true and a non-empty owner
handle is present; in every other case the result is none. -/
theorem buildFundingSummary_priority (pkg : PackageWithFunding) :
    (strTruthy pkg.ocSlug = true →
      ∃ fs, buildFundingSummary pkg = some fs ∧ fs.platform = .opencollective)
    ∧ (strTruthy pkg.ocSlug = false →
        (pkg.ghHasSponsorsListing = some true ∧ strTruthy pkg.repositoryOwner = true →
          ∃ fs, buildFundingSummary pkg = some fs ∧ fs.platform = .github)
        ∧ (¬(pkg.ghHasSponsorsListing = some true ∧ strTruthy pkg.repositoryOwner = true) →
          buildFundingSummary pkg = none)) := by
  constructor
  · intro h
    simp only [buildFundingSummary, h, if_true]
    exact ⟨_, rfl, rfl⟩
  · intro h
    by_cases hg : pkg.ghHasSponsorsListing = some true ∧ strTruthy pkg.repositoryOwner = true
    · constructor
      · intro _
        simp only [buildFundingSummary, h, Bool.false_eq_true, if_false]
        rw [if_pos hg]
        exact ⟨_, rfl, rfl⟩
      · intro hcontra
        exact absurd hg hcontra
    · constructor
      · intro hcontra
        exact absurd hcontra hg
      · intro _
        simp only [buildFundingSummary, h, Bool.false_eq_true, if_false]
        rw [if_neg hg]

/-- Witness for the amended C8: a package with a non-empty slug and full
GitHub data still gets an opencollective summary. -/
theorem buildFundingSummary_priority_witness :
    ∃ fs, buildFundingSummary
        { ocSlug := some "webpack"
          ghHasSponsorsListing := some true
          repositoryOwner := some "octo" } = some fs
      ∧ fs.platform = .opencollective :=
  (buildFundingSummary_priority
    { ocSlug := some "webpack"
      ghHasSponsorsListing := some true
      repositoryOwner := some "octo" }).1 rfl

theorem filter_orderedInsert_key (x : Factor) (l : List Factor) (k : ℚ) :
    (List.orderedInsert factorGE x l).filter (fun f => decide (|f.impact| = k)) =
      if |x.impact| = k then
        x :: l.filter (fun f => decide (|f.impact| = k))
      else l.filter (fun f => decide (|f.impact| = k)) := by
  induction l with
  | nil =>
    by_cases hx : |x.impact| = k <;> simp [List.orderedInsert, List.filter, hx]
  | cons y ys ih =>
    rw [show List.orderedInsert factorGE x (y :: ys) =
      if factorGE x y then x :: y :: ys else y :: List.orderedInsert factorGE x ys from rfl]
    by_cases hxy : factorGE x y
    · rw [if_pos hxy]
      by_cases hx : |x.impact| = k <;> simp [List.filter_cons, hx]
    · rw [if_neg hxy]
      by_cases hx : |x.impact| = k
      · have hy : ¬ |y.impact| = k := by
          intro hy
          exact hxy (show factorGE x y from by simp only [factorGE]; rw [hy, hx])
        simp [List.filter_cons, hx, hy, ih]
      · simp [List.filter_cons, hx, ih]

/-- Stability of the explanation sort: elements of equal absolute impact keep
their original relative order. -/
theorem sortFactors_filter_key (l : List Factor) (k : ℚ) :
    (sortFactors l).filter (fun f => decide (|f.impact| = k)) =
      l.filter (fun f => decide (|f.impact| = k)) := by
  induction l with
  | nil => rfl
  | cons x xs ih =>
    rw [show sortFactors (x :: xs) =
      List.orderedInsert factorGE x (sortFactors xs) from rfl]
    rw [filter_orderedInsert_key]
    by_cases hx : |x.impact| = k <;> simp [List.filter_cons, hx, ih]

/-- C9: on the weighted path the explanation is exactly the reasons of the
first 3 entries of a stably sorted copy of the factor list (descending
absolute impact, ties in original order), its length is at most 3 and at
most the number of recorded factors, and the returned `factors` field is the
evaluation-order list, not the sorted one. -/
theorem calculateScore_explanation_top3 (log10 : ℚ → ℚ) (inputs : ScoringInputs)
    (weights : ScoringWeights) (hm : inputs.maintainerStatus = none)
    (hc : strTruthy inputs.corporateBacking = false) :
    (calculateScore log10 inputs weights).explanation =
      ((sortFactors ((calculateScore log10 inputs weights).factors)).take 3).map
        (fun f => f.reason)
    ∧ (calculateScore log10 inputs weights).explanation.length ≤ 3
    ∧ (calculateScore log10 inputs weights).explanation.length ≤
        (calculateScore log10 inputs weights).factors.length
    ∧ (calculateScore log10 inputs weights).factors =
        weightedFactors log10 inputs weights
    ∧ List.Sorted factorGE (sortFactors ((calculateScore log10 inputs weights).factors))
    ∧ (sortFactors ((calculateScore log10 inputs weights).factors)).Perm
        ((calculateScore log10 inputs weights).factors)
    ∧ ∀ k : ℚ,
        (sortFactors ((calculateScore log10 inputs weights).factors)).filter
          (fun f => decide (|f.impact| = k)) =
        ((calculateScore log10 inputs weights).factors).filter
          (fun f => decide (|f.impact| = k)) := by
  have hred : calculateScore log10 inputs weights =
      { score := (clampRound (weightedRawScore log10 inputs weights) : ℚ)
        category := categorize (clampRound (weightedRawScore log10 inputs weights) : ℚ)
        explanation :=
          ((sortFactors (weightedFactors log10 inputs weights)).take 3).map
            (fun f => f.reason)
        factors := weightedFactors log10 inputs weights } := by
    simp [calculateScore, hm, hc]
  rw [hred]
  refine ⟨rfl, ?_, ?_, rfl, ?_, ?_, ?_⟩
  · rw [List.length_map, List.length_take]
    exact min_le_left 3 _
  · rw [List.length_map, List.length_take]
    calc min 3 (sortFactors (weightedFactors log10 inputs weights)).length
        ≤ (sortFactors (weightedFactors log10 inputs weights)).length :=
          min_le_right _ _
      _ = (weightedFactors log10 inputs weights).length :=
          (List.perm_insertionSort factorGE (weightedFactors log10 inputs weights)).length_eq
  · exact List.sorted_insertionSort factorGE (weightedFactors log10 inputs weights)
  · exact List.perm_insertionSort factorGE (weightedFactors log10 inputs weights)
  · intro k
    exact sortFactors_filter_key (weightedFactors log10 inputs weights) k

/-- Witness for C9 at a concrete input with three factors (solo maintainer,
inactivity, AI disruption). -/
theorem calculateScore_explanation_top3_witness :
    (calculateScore (fun _ => 0)
        { maintainerCount := some 1, daysSinceLastPublish := some 4000,
          aiDisruptionFlag := some true } DEFAULT_WEIGHTS).explanation =
      ((sortFactors ((calculateScore (fun _ => 0)
        { maintainerCount := some 1, daysSinceLastPublish := some 4000,
          aiDisruptionFlag := some true } DEFAULT_WEIGHTS).factors)).take 3).map
        (fun f => f.reason)
    ∧ (calculateScore (fun _ => 0)
        { maintainerCount := some 1, daysSinceLastPublish := some 4000,
          aiDisruptionFlag := some true } DEFAULT_WEIGHTS).explanation.length ≤ 3 :=
  ⟨(calculateScore_explanation_top3 (fun _ => 0)
      { maintainerCount := some 1, daysSinceLastPublish := some 4000,
        aiDisruptionFlag := some true } DEFAULT_WEIGHTS rfl rfl).1,
   (calculateScore_explanation_top3 (fun _ => 0)
      { maintainerCount := some 1, daysSinceLastPublish := some 4000,
        aiDisruptionFlag := some true } DEFAULT_WEIGHTS rfl rfl).2.1⟩

/-- C5: with maintainerStatus and corporateBacking absent and all other
inputs fixed, the score under default weights is monotone nondecreasing in
`ocBalance`, and above the 100000 cap it is constant (in particular
score(200000) = score(100000)). -/
theorem calculateScore_ocBalance_monotone (log10 : ℚ → ℚ)
    (inputs : ScoringInputs) (b1 b2 : ℚ)
    (hm : inputs.maintainerStatus = none)
    (hc : inputs.corporateBacking = none) (hb : b1 ≤ b2) :
    (calculateScore log10 { inputs with ocBalance := some b1 } DEFAULT_WEIGHTS).score ≤
      (calculateScore log10 { inputs with ocBalance := some b2 } DEFAULT_WEIGHTS).score
    ∧ ∀ b : ℚ, 100000 ≤ b →
        (calculateScore log10 { inputs with ocBalance := some b } DEFAULT_WEIGHTS).score =
          (calculateScore log10 { inputs with ocBalance := some 100000 } DEFAULT_WEIGHTS).score := by
  have hsc : ∀ b : ℚ,
      (calculateScore log10 { inputs with ocBalance := some b } DEFAULT_WEIGHTS).score =
        ((clampRound (applyImportancePenalty (ecosystemImportance log10 inputs)
          (50 + scoreContributions { inputs with ocBalance := some b }
            DEFAULT_WEIGHTS)) : ℤ) : ℚ) := by
    intro b
    have h1 : (calculateScore log10 { inputs with ocBalance := some b }
        DEFAULT_WEIGHTS).score =
        ((clampRound (weightedRawScore log10 { inputs with ocBalance := some b }
          DEFAULT_WEIGHTS) : ℤ) : ℚ) := by
      simp [calculateScore, hm, hc, strTruthy]
    rw [h1]
    rfl
  constructor
  · have hcon : scoreContributions { inputs with ocBalance := some b1 } DEFAULT_WEIGHTS
        ≤ scoreContributions { inputs with ocBalance := some b2 } DEFAULT_WEIGHTS := by
      have hn := normalizeBalance_mono hb
      have hbal : (if normalizeBalance (some b1) > 0
            then normalizeBalance (some b1) * DEFAULT_WEIGHTS.ocBalance else 0)
          ≤ (if normalizeBalance (some b2) > 0
            then normalizeBalance (some b2) * DEFAULT_WEIGHTS.ocBalance else 0) := by
        split_ifs with p1 p2 p2
        · exact mul_le_mul_of_nonneg_right hn (by norm_num [DEFAULT_WEIGHTS])
        · exact absurd (lt_of_lt_of_le p1 hn) p2
        · exact mul_nonneg (le_of_lt p2) (by norm_num [DEFAULT_WEIGHTS])
        · exact le_refl 0
      simp only [scoreContributions]
      dsimp only
      linarith [hbal]
    rw [hsc b1, hsc b2]
    have hpen := applyImportancePenalty_mono (ecosystemImportance log10 inputs)
      (show (50:ℚ) + scoreContributions { inputs with ocBalance := some b1 }
          DEFAULT_WEIGHTS ≤ 50 + scoreContributions { inputs with ocBalance := some b2 }
          DEFAULT_WEIGHTS by linarith)
    exact_mod_cast clampRound_mono hpen
  · intro b hbcap
    rw [hsc b, hsc 100000]
    have hceq : scoreContributions { inputs with ocBalance := some b } DEFAULT_WEIGHTS =
        scoreContributions { inputs with ocBalance := some 100000 } DEFAULT_WEIGHTS := by
      simp only [scoreContributions]
      dsimp only
      rw [normalizeBalance_cap hbcap, normalizeBalance_cap (le_refl (100000 : ℚ))]
    rw [hceq]

/-- Witness for C5 at concrete inputs: score at balance 0 is at most score at
balance 50000, and the scores at balances 200000 and 100000 coincide. -/
theorem calculateScore_ocBalance_monotone_witness :
    (calculateScore (fun _ => 0) { (({} : ScoringInputs)) with ocBalance := some 0 }
        DEFAULT_WEIGHTS).score ≤
      (calculateScore (fun _ => 0) { (({} : ScoringInputs)) with ocBalance := some 50000 }
        DEFAULT_WEIGHTS).score
    ∧ (calculateScore (fun _ => 0) { (({} : ScoringInputs)) with ocBalance := some 200000 }
        DEFAULT_WEIGHTS).score =
      (calculateScore (fun _ => 0) { (({} : ScoringInputs)) with ocBalance := some 100000 }
        DEFAULT_WEIGHTS).score :=
  ⟨(calculateScore_ocBalance_monotone (fun _ => 0) {} 0 50000 rfl rfl
      (by norm_num)).1,
   (calculateScore_ocBalance_monotone (fun _ => 0) {} 0 50000 rfl rfl
      (by norm_num)).2 200000 (by norm_num)⟩
